import Mathlib

/-!
Verification development for the user-tier utility module
(`src/utils/userTierUtils.ts`).

The module classifies a user into one of three tiers (guest, freemium,
premium) from three inputs: a guest flag, a user id (string or null), and a
premium flag.  The embedding below translates the TypeScript source into
Lean: JavaScript runtime values that may reach a parameter are modelled by
the inductive type `JSVal`, thrown `TypeError` and `Error` values by
`JsError`, and async rejection by `Except`.  The async resolver is modelled
with an explicit call log (the list of user ids the injected fetcher was
invoked with) so that invocation-count properties can be stated.
-/

deriving instance DecidableEq for Except

namespace UserTierUtils

/-- The `UserTier` union type: `'guest' | 'freemium' | 'premium'`. -/
inductive UserTier where
  | guest
  | freemium
  | premium
deriving DecidableEq, Repr, Fintype

/-- The `UserTierInfo` interface returned by the resolver. -/
structure UserTierInfo where
  tier : UserTier
  isPremium : Bool
  isGuest : Bool
  isAuthenticated : Bool
  userId : Option String
deriving DecidableEq, Repr

/-- Errors thrown by the module: `TypeError` from the validators and plain
`Error` from the fetch-failure wrapper. Only the message is observable. -/
inductive JsError where
  | typeError (msg : String)
  | error (msg : String)
deriving DecidableEq, Repr

/-- JavaScript runtime values that can reach a parameter of the module.
An object value carries the behaviour of its `isPremium` property when that
property is a function (`some f`), and `none` when the property is missing
or not a function.  The fetcher behaviour `f` returns `Except String Bool`:
`ok` for a resolved promise and `error msg` for a rejection with message
`msg`. -/
inductive JSVal where
  | jsNull
  | undef
  | bool (b : Bool)
  | str (s : String)
  | num (n : Int)
  | obj (isPremiumFn : Option (String → Except String Bool))

/-- JavaScript `typeof`, restricted to the modelled values.  Note that
`typeof null` is `"object"` in JavaScript. -/
def JSVal.typeof : JSVal → String
  | .jsNull => "object"
  | .undef => "undefined"
  | .bool _ => "boolean"
  | .str _ => "string"
  | .num _ => "number"
  | .obj _ => "object"

/-- `true` exactly on the modelled `null` value. -/
def JSVal.isNull : JSVal → Bool
  | .jsNull => true
  | _ => false

/-- The code points `String.prototype.trim` removes: the ECMAScript
WhiteSpace production (TAB, VT, FF, SP, NBSP, ZWNBSP and the Unicode
space-separator category Zs) and the LineTerminator production (LF, CR,
LS, PS). -/
def isJsWhitespace (c : Char) : Bool :=
  c.toNat = 0x09 || c.toNat = 0x0A || c.toNat = 0x0B || c.toNat = 0x0C ||
  c.toNat = 0x0D || c.toNat = 0x20 || c.toNat = 0xA0 || c.toNat = 0x1680 ||
  (0x2000 ≤ c.toNat && c.toNat ≤ 0x200A) ||
  c.toNat = 0x2028 || c.toNat = 0x2029 || c.toNat = 0x202F ||
  c.toNat = 0x205F || c.toNat = 0x3000 || c.toNat = 0xFEFF

/-- Executable form of the JavaScript condition `s.trim() === ''`: a string
trims to the empty string exactly when every character is JavaScript
whitespace (vacuously, when the string is empty). -/
def isWhitespaceOnly (s : String) : Bool :=
  s.data.all isJsWhitespace

/-- `validateUserId` (source lines 213-223): accepts `null` and non-empty,
non-whitespace-only strings; throws `TypeError` otherwise. -/
def validateUserId : JSVal → Except JsError (Option String)
  | .jsNull => .ok none
  | .str s =>
      if isWhitespaceOnly s then
        .error (.typeError "Invalid userId: cannot be empty string")
      else
        .ok (some s)
  | v => .error (.typeError ("Invalid userId: expected string or null, got " ++ v.typeof))

/-- `validateIsGuest` (source lines 231-237). -/
def validateIsGuest : JSVal → Except JsError Bool
  | .bool b => .ok b
  | v => .error (.typeError ("Invalid isGuest: expected boolean, got " ++ v.typeof))

/-- `validateIsPremium` (source lines 245-251). -/
def validateIsPremium : JSVal → Except JsError Bool
  | .bool b => .ok b
  | v => .error (.typeError ("Invalid isPremium: expected boolean, got " ++ v.typeof))

/-- `validateFetcher` (source lines 259-271).  A non-object (including the
`null` object, whose `typeof` is `"object"`) fails the first check; an
object without an `isPremium` function fails the second. -/
def validateFetcher : JSVal → Except JsError (String → Except String Bool)
  | .obj (some f) => .ok f
  | .obj none => .error (.typeError "Invalid fetcher: isPremium must be a function")
  | v => .error (.typeError ("Invalid fetcher: expected object, got " ++ v.typeof))

/-- `getUserTierInfo` (source lines 351-379): validates the three
parameters in order, then classifies. -/
def getUserTierInfo (isGuestFlag userId isPremium : JSVal) :
    Except JsError UserTierInfo :=
  match validateIsGuest isGuestFlag with
  | .error e => .error e
  | .ok g =>
    match validateUserId userId with
    | .error e => .error e
    | .ok u =>
      match validateIsPremium isPremium with
      | .error e => .error e
      | .ok p =>
        if g || u.isNone then
          .ok ⟨.guest, false, true, false, none⟩
        else
          .ok ⟨if p then .premium else .freemium, p, false, true, u⟩

/-- `checkPremiumAccess` (source lines 486-501): validates the three
parameters in order, returns `false` for guests, the supplied premium flag
otherwise. -/
def checkPremiumAccess (isGuestFlag userId isPremium : JSVal) :
    Except JsError Bool :=
  match validateIsGuest isGuestFlag with
  | .error e => .error e
  | .ok g =>
    match validateUserId userId with
    | .error e => .error e
    | .ok u =>
      match validateIsPremium isPremium with
      | .error e => .error e
      | .ok p =>
        if g || u.isNone then .ok false else .ok p

/-- `isAuthenticated` (source lines 292-300): `!isGuest && userId !== null`
after validation. -/
def isAuthenticated (isGuestFlag userId : JSVal) : Except JsError Bool :=
  match validateIsGuest isGuestFlag with
  | .error e => .error e
  | .ok g =>
    match validateUserId userId with
    | .error e => .error e
    | .ok u => .ok (!g && u.isSome)

/-- `isGuest` (source lines 321-329): `isGuestFlag || userId === null`
after validation. -/
def isGuest (isGuestFlag userId : JSVal) : Except JsError Bool :=
  match validateIsGuest isGuestFlag with
  | .error e => .error e
  | .ok g =>
    match validateUserId userId with
    | .error e => .error e
    | .ok u => .ok (g || u.isNone)

/-- `getIsPremium` (source lines 405-430).  Returns the list of user ids
the fetcher was invoked with, paired with the resolved value or the
propagated error.  Validation runs first (guest flag, user id, fetcher),
then the guest short-circuit, then the awaited fetch whose failure is
rethrown with the `Failed to fetch premium status: ` prefix. -/
def getIsPremium (isGuestFlag userId fetcher : JSVal) :
    List String × Except JsError Bool :=
  match validateIsGuest isGuestFlag with
  | .error e => ([], .error e)
  | .ok g =>
    match validateUserId userId with
    | .error e => ([], .error e)
    | .ok u =>
      match validateFetcher fetcher with
      | .error e => ([], .error e)
      | .ok f =>
        if g then ([], .ok false)
        else
          match u with
          | none => ([], .ok false)
          | some s =>
            match f s with
            | .ok b => ([s], .ok b)
            | .error msg =>
                ([s], .error (.error ("Failed to fetch premium status: " ++ msg)))

/-- `getUserTierInfoAsync` (source lines 452-462): resolves the premium
flag via `getIsPremium`, then applies `getUserTierInfo`. -/
def getUserTierInfoAsync (isGuestFlag userId fetcher : JSVal) :
    List String × Except JsError UserTierInfo :=
  match getIsPremium isGuestFlag userId fetcher with
  | (log, .error e) => (log, .error e)
  | (log, .ok p) => (log, getUserTierInfo isGuestFlag userId (.bool p))

/-- A JavaScript-level record with the five `UserTierInfo` property slots,
used as the domain of the `isUserTierInfo` type guard. -/
structure JSTierRecord where
  tier : JSVal
  isPremium : JSVal
  isGuest : JSVal
  isAuthenticated : JSVal
  userId : JSVal

/-- `isValidUserTier` (source lines 174-176). -/
def isValidUserTier : JSVal → Bool
  | .str s => s == "guest" || s == "freemium" || s == "premium"
  | _ => false

/-- `isUserTierInfo` (source lines 191-205), on an object value. -/
def isUserTierInfo (v : JSTierRecord) : Bool :=
  isValidUserTier v.tier &&
  (match v.isPremium with | .bool _ => true | _ => false) &&
  (match v.isGuest with | .bool _ => true | _ => false) &&
  (match v.isAuthenticated with | .bool _ => true | _ => false) &&
  (match v.userId with | .jsNull => true | .str _ => true | _ => false)

/-- The string literal a `UserTier` value denotes. -/
def UserTier.toStr : UserTier → String
  | .guest => "guest"
  | .freemium => "freemium"
  | .premium => "premium"

/-- View a typed `UserTierInfo` as the JavaScript record it is at runtime. -/
def UserTierInfo.toJS (i : UserTierInfo) : JSTierRecord :=
  ⟨.str i.tier.toStr, .bool i.isPremium, .bool i.isGuest, .bool i.isAuthenticated,
    match i.userId with | none => .jsNull | some s => .str s⟩

/-- `tierLevels` (source lines 552-556). -/
def tierLevels : UserTier → Nat
  | .guest => 0
  | .freemium => 1
  | .premium => 2

/-- `hasTierAccess` (source lines 551-559). -/
def hasTierAccess (tier1 tier2 : UserTier) : Bool :=
  decide (tierLevels tier2 ≤ tierLevels tier1)

/-- A value is a valid `isGuest` argument when it is a boolean. -/
def validIsGuestVal (v : JSVal) : Prop := ∃ b, v = .bool b

/-- A value is a valid `userId` argument when it is `null` or a string
whose trimmed form is non-empty. -/
def validUserIdVal (v : JSVal) : Prop :=
  v = .jsNull ∨ ∃ s, v = .str s ∧ isWhitespaceOnly s = false

/-- A value is a valid `isPremium` argument when it is a boolean. -/
def validIsPremiumVal (v : JSVal) : Prop := ∃ b, v = .bool b

/-- A value is a valid fetcher argument when it is an object whose
`isPremium` property is a function. -/
def validFetcherVal (v : JSVal) : Prop := ∃ f, v = .obj (some f)

/-- An error message names a parameter and the actual type of the supplied
value when both occur in it as substrings. -/
def namesParamAndType (msg param : String) (v : JSVal) : Prop :=
  param.data <:+: msg.data ∧ (JSVal.typeof v).data <:+: msg.data

end UserTierUtils

namespace UserTierUtils

theorem validateIsGuest_of_invalid (v : JSVal) (h : ¬ validIsGuestVal v) :
    validateIsGuest v =
      .error (.typeError ("Invalid isGuest: expected boolean, got " ++ v.typeof)) := by
  cases v <;> first | rfl | exact absurd ⟨_, rfl⟩ h

theorem validateIsPremium_of_invalid (v : JSVal) (h : ¬ validIsPremiumVal v) :
    validateIsPremium v =
      .error (.typeError ("Invalid isPremium: expected boolean, got " ++ v.typeof)) := by
  cases v <;> first | rfl | exact absurd ⟨_, rfl⟩ h

theorem namesParamAndType_isGuest (v : JSVal) :
    namesParamAndType ("Invalid isGuest: expected boolean, got " ++ v.typeof)
      "isGuest" v := by
  cases v <;> refine ⟨?_, ?_⟩ <;> simp only [JSVal.typeof] <;> decide

theorem namesParamAndType_isPremium (v : JSVal) :
    namesParamAndType ("Invalid isPremium: expected boolean, got " ++ v.typeof)
      "isPremium" v := by
  cases v <;> refine ⟨?_, ?_⟩ <;> simp only [JSVal.typeof] <;> decide

theorem validateUserId_of_invalid (u : JSVal) (h : ¬ validUserIdVal u) :
    ∃ msg, validateUserId u = .error (.typeError msg) ∧
      namesParamAndType msg "userId" u := by
  cases u with
  | jsNull => exact absurd (Or.inl rfl) h
  | str s =>
      have hs : isWhitespaceOnly s = true := by
        by_contra hc
        exact h (Or.inr ⟨s, rfl, by simpa using hc⟩)
      refine ⟨"Invalid userId: cannot be empty string", by simp [validateUserId, hs], ?_, ?_⟩ <;>
        simp only [JSVal.typeof] <;> decide
  | undef => refine ⟨_, rfl, ?_, ?_⟩ <;> simp only [JSVal.typeof] <;> decide
  | bool b => refine ⟨_, rfl, ?_, ?_⟩ <;> simp only [JSVal.typeof] <;> decide
  | num n => refine ⟨_, rfl, ?_, ?_⟩ <;> simp only [JSVal.typeof] <;> decide
  | obj f => refine ⟨_, rfl, ?_, ?_⟩ <;> simp only [JSVal.typeof] <;> decide

theorem validateUserId_of_valid (u : JSVal) (h : validUserIdVal u) :
    (u = .jsNull ∧ validateUserId u = .ok none) ∨
    (∃ s, u = .str s ∧ validateUserId u = .ok (some s)) := by
  rcases h with rfl | ⟨s, rfl, hs⟩
  · exact Or.inl ⟨rfl, rfl⟩
  · exact Or.inr ⟨s, rfl, by simp [validateUserId, hs]⟩

end UserTierUtils

namespace UserTierUtils

/-- Claim C1 (counterexample): the claim quantifies over every non-empty
string userId, but for the non-empty, whitespace-only userId `" "` with
`isGuest = true` the resolver throws a `TypeError` instead of returning the
guest record. -/
theorem getUserTierInfo_whitespace_userId_throws :
    getUserTierInfo (.bool true) (.str " ") (.bool false) =
      .error (.typeError "Invalid userId: cannot be empty string") ∧
    getUserTierInfo (.bool true) (.str " ") (.bool false) ≠
      .ok ⟨.guest, false, true, false, none⟩ := by
  exact ⟨by decide, by decide⟩

/-- Claim C1 (amended): for boolean flags and a userId that is null or a
string that does not trim to empty, the resolver classifies the user as
guest exactly when the guest flag is set or the userId is null, and in
that case returns the fixed guest record, discarding the premium flag. -/
theorem getUserTierInfo_guest_classification (g p : Bool) (u : JSVal)
    (hu : validUserIdVal u) :
    (∃ info, getUserTierInfo (.bool g) u (.bool p) = .ok info ∧
        (info.tier = .guest ↔ (g = true ∨ u = .jsNull))) ∧
    ((g = true ∨ u = .jsNull) →
      getUserTierInfo (.bool g) u (.bool p) =
        .ok ⟨.guest, false, true, false, none⟩) := by
  rcases hu with rfl | ⟨s, rfl, hs⟩
  · cases g <;>
      simp [getUserTierInfo, validateIsGuest, validateUserId, validateIsPremium]
  · cases g <;>
      simp [getUserTierInfo, validateIsGuest, validateUserId, validateIsPremium, hs]
    cases p <;> simp

/-- Claim C1 witness. -/
theorem getUserTierInfo_guest_classification_witness :
    getUserTierInfo (.bool true) .jsNull (.bool true) =
      .ok ⟨.guest, false, true, false, none⟩ :=
  (getUserTierInfo_guest_classification true true .jsNull (Or.inl rfl)).2
    (Or.inl rfl)

/-- Claim C2 (counterexample): the claim quantifies over every non-null,
non-empty string userId, but for the non-empty, whitespace-only userId
`" "` with `isGuest = false` the resolver throws a `TypeError` instead of
returning the authenticated record. -/
theorem getUserTierInfo_whitespace_userId_not_authenticated :
    getUserTierInfo (.bool false) (.str " ") (.bool true) =
      .error (.typeError "Invalid userId: cannot be empty string") ∧
    getUserTierInfo (.bool false) (.str " ") (.bool true) ≠
      .ok ⟨.premium, true, false, true, some " "⟩ := by
  exact ⟨by decide, by decide⟩

/-- Claim C2 (amended): for `isGuest = false` and a string userId that does
not trim to empty, the resolver returns the authenticated record with
`tier` premium or freemium according to the premium flag and the userId
echoed unchanged. -/
theorem getUserTierInfo_authenticated_classification (s : String) (p : Bool)
    (hs : isWhitespaceOnly s = false) :
    getUserTierInfo (.bool false) (.str s) (.bool p) =
      .ok ⟨if p then .premium else .freemium, p, false, true, some s⟩ := by
  simp [getUserTierInfo, validateIsGuest, validateUserId, validateIsPremium, hs]

/-- Claim C2 witness. -/
theorem getUserTierInfo_authenticated_classification_witness :
    getUserTierInfo (.bool false) (.str "u1") (.bool true) =
      .ok ⟨if true then .premium else .freemium, true, false, true, some "u1"⟩ :=
  getUserTierInfo_authenticated_classification "u1" true (by decide)

end UserTierUtils

namespace UserTierUtils

/-- Claim C3: for a valid fetcher, guest-classified inputs resolve to
`isPremium = false` with an empty call log (the fetcher is never invoked),
both in `getIsPremium` and in `getUserTierInfoAsync`; non-guest inputs
invoke the fetcher exactly once, with the supplied userId. -/
theorem getIsPremium_guest_short_circuit (g : Bool) (u : JSVal)
    (f : String → Except String Bool) (hu : validUserIdVal u) :
    ((g = true ∨ u = .jsNull) →
      getIsPremium (.bool g) u (.obj (some f)) = ([], .ok false) ∧
      (getUserTierInfoAsync (.bool g) u (.obj (some f))).1 = []) ∧
    (∀ s, u = .str s → g = false →
      (getIsPremium (.bool g) u (.obj (some f))).1 = [s] ∧
      (getUserTierInfoAsync (.bool g) u (.obj (some f))).1 = [s]) := by
  rcases hu with rfl | ⟨s, rfl, hs⟩
  · cases g <;>
      simp [getIsPremium, getUserTierInfoAsync, validateIsGuest, validateUserId,
        validateFetcher]
  · cases g
    · refine ⟨by simp, ?_⟩
      rintro s' hs' -
      obtain rfl : s = s' := by injection hs'
      cases hfs : f s <;>
        simp [getIsPremium, getUserTierInfoAsync, validateIsGuest, validateUserId,
          validateFetcher, hs, hfs]
    · refine ⟨?_, by rintro s' hs' h; exact absurd h (by simp)⟩
      rintro (h | h)
      · simp [getIsPremium, getUserTierInfoAsync, validateIsGuest, validateUserId,
          validateFetcher, hs]
      · exact absurd h (by simp)

/-- Claim C3 witness. -/
theorem getIsPremium_guest_short_circuit_witness :
    getIsPremium (.bool true) .jsNull (.obj (some (fun _ => .ok true))) =
      ([], .ok false) ∧
    (getIsPremium (.bool false) (.str "u1")
        (.obj (some (fun _ => .ok true)))).1 = ["u1"] :=
  ⟨((getIsPremium_guest_short_circuit true .jsNull (fun _ => .ok true)
      (Or.inl rfl)).1 (Or.inl rfl)).1,
   ((getIsPremium_guest_short_circuit false (.str "u1") (fun _ => .ok true)
      (Or.inr ⟨"u1", rfl, by decide⟩)).2 "u1" rfl rfl).1⟩

/-- Claim C4 (counterexample): for a non-guest input whose fetcher rejects
with message `db error`, the propagated message carries the prefix
`Failed to fetch premium status: ` with a capital F, not the lowercase
prefix the claim states. -/
theorem getIsPremium_fetch_error_prefix_capitalized :
    (getIsPremium (.bool false) (.str "u1")
        (.obj (some (fun _ => .error "db error")))).2 ≠
      .error (.error ("failed to fetch premium status: " ++ "db error")) ∧
    (getIsPremium (.bool false) (.str "u1")
        (.obj (some (fun _ => .error "db error")))).2 =
      .error (.error ("Failed to fetch premium status: " ++ "db error")) := by
  exact ⟨by decide, by decide⟩

/-- Claim C4 (amended): for a non-guest input whose fetcher rejects with
some message, the resolver rejects (after invoking the fetcher once) with
the stable prefix `Failed to fetch premium status: ` followed by the
original message, so the original cause is contained in the propagated
message. -/
theorem getIsPremium_fetch_error_propagates (s e : String)
    (hs : isWhitespaceOnly s = false) (f : String → Except String Bool)
    (hf : f s = .error e) :
    getIsPremium (.bool false) (.str s) (.obj (some f)) =
      ([s], .error (.error ("Failed to fetch premium status: " ++ e))) ∧
    e.data <:+: ("Failed to fetch premium status: " ++ e).data := by
  constructor
  · simp [getIsPremium, validateIsGuest, validateUserId, validateFetcher, hs, hf]
  · exact ⟨"Failed to fetch premium status: ".data, [], by simp⟩

/-- Claim C4 witness. -/
theorem getIsPremium_fetch_error_propagates_witness :
    getIsPremium (.bool false) (.str "u1")
        (.obj (some (fun _ => .error "db error"))) =
      (["u1"], .error (.error ("Failed to fetch premium status: " ++ "db error"))) ∧
    "db error".data <:+: ("Failed to fetch premium status: " ++ "db error").data :=
  getIsPremium_fetch_error_propagates "u1" "db error" (by decide)
    (fun _ => .error "db error") rfl

end UserTierUtils

namespace UserTierUtils

/-- Claim C5: each resolver function raises a `TypeError` naming the first
offending parameter and its runtime type when a parameter constraint is
violated (non-boolean flags; userId neither null nor string, or a string
trimming to empty), and raises no such error on valid inputs. -/
theorem resolver_invalid_argument_errors :
    (∀ g u p, ¬ validIsGuestVal g → ∃ msg,
        getUserTierInfo g u p = .error (.typeError msg) ∧
        namesParamAndType msg "isGuest" g) ∧
    (∀ (b : Bool) u p, ¬ validUserIdVal u → ∃ msg,
        getUserTierInfo (.bool b) u p = .error (.typeError msg) ∧
        namesParamAndType msg "userId" u) ∧
    (∀ (b : Bool) u p, validUserIdVal u → ¬ validIsPremiumVal p → ∃ msg,
        getUserTierInfo (.bool b) u p = .error (.typeError msg) ∧
        namesParamAndType msg "isPremium" p) ∧
    (∀ (b q : Bool) u, validUserIdVal u → ∃ info,
        getUserTierInfo (.bool b) u (.bool q) = .ok info) ∧
    (∀ g u p, ¬ validIsGuestVal g → ∃ msg,
        checkPremiumAccess g u p = .error (.typeError msg) ∧
        namesParamAndType msg "isGuest" g) ∧
    (∀ (b : Bool) u p, ¬ validUserIdVal u → ∃ msg,
        checkPremiumAccess (.bool b) u p = .error (.typeError msg) ∧
        namesParamAndType msg "userId" u) ∧
    (∀ (b : Bool) u p, validUserIdVal u → ¬ validIsPremiumVal p → ∃ msg,
        checkPremiumAccess (.bool b) u p = .error (.typeError msg) ∧
        namesParamAndType msg "isPremium" p) ∧
    (∀ (b q : Bool) u, validUserIdVal u → ∃ r,
        checkPremiumAccess (.bool b) u (.bool q) = .ok r) ∧
    (∀ g u, ¬ validIsGuestVal g → ∃ msg,
        isAuthenticated g u = .error (.typeError msg) ∧
        namesParamAndType msg "isGuest" g) ∧
    (∀ (b : Bool) u, ¬ validUserIdVal u → ∃ msg,
        isAuthenticated (.bool b) u = .error (.typeError msg) ∧
        namesParamAndType msg "userId" u) ∧
    (∀ (b : Bool) u, validUserIdVal u → ∃ r,
        isAuthenticated (.bool b) u = .ok r) ∧
    (∀ g u, ¬ validIsGuestVal g → ∃ msg,
        isGuest g u = .error (.typeError msg) ∧
        namesParamAndType msg "isGuest" g) ∧
    (∀ (b : Bool) u, ¬ validUserIdVal u → ∃ msg,
        isGuest (.bool b) u = .error (.typeError msg) ∧
        namesParamAndType msg "userId" u) ∧
    (∀ (b : Bool) u, validUserIdVal u → ∃ r,
        isGuest (.bool b) u = .ok r) ∧
    (∀ g u fv, ¬ validIsGuestVal g → ∃ msg,
        getIsPremium g u fv = ([], .error (.typeError msg)) ∧
        namesParamAndType msg "isGuest" g) ∧
    (∀ (b : Bool) u fv, ¬ validUserIdVal u → ∃ msg,
        getIsPremium (.bool b) u fv = ([], .error (.typeError msg)) ∧
        namesParamAndType msg "userId" u) ∧
    (∀ (b : Bool) u f, validUserIdVal u → ∀ msg,
        (getIsPremium (.bool b) u (.obj (some f))).2 ≠
          .error (.typeError msg)) := by
  have hgu : ∀ u, validUserIdVal u →
      (u = .jsNull ∧ validateUserId u = .ok none) ∨
      (∃ s, u = .str s ∧ validateUserId u = .ok (some s)) :=
    validateUserId_of_valid
  refine ⟨?_, ?_, ?_, ?_, ?_, ?_, ?_, ?_, ?_, ?_, ?_, ?_, ?_, ?_, ?_, ?_, ?_⟩
  · intro g u p h
    exact ⟨_, by simp [getUserTierInfo, validateIsGuest_of_invalid g h],
      namesParamAndType_isGuest g⟩
  · intro b u p h
    obtain ⟨msg, hmsg, hn⟩ := validateUserId_of_invalid u h
    exact ⟨msg, by simp [getUserTierInfo, validateIsGuest, hmsg], hn⟩
  · intro b u p hu hp
    rcases hgu u hu with ⟨rfl, hval⟩ | ⟨s, rfl, hval⟩ <;>
      exact ⟨_, by simp [getUserTierInfo, validateIsGuest, hval,
        validateIsPremium_of_invalid p hp], namesParamAndType_isPremium p⟩
  · intro b q u hu
    rcases hgu u hu with ⟨rfl, hval⟩ | ⟨s, rfl, hval⟩ <;>
      [skip; cases b] <;>
      simp [getUserTierInfo, validateIsGuest, validateIsPremium, hval]
  · intro g u p h
    exact ⟨_, by simp [checkPremiumAccess, validateIsGuest_of_invalid g h],
      namesParamAndType_isGuest g⟩
  · intro b u p h
    obtain ⟨msg, hmsg, hn⟩ := validateUserId_of_invalid u h
    exact ⟨msg, by simp [checkPremiumAccess, validateIsGuest, hmsg], hn⟩
  · intro b u p hu hp
    rcases hgu u hu with ⟨rfl, hval⟩ | ⟨s, rfl, hval⟩ <;>
      exact ⟨_, by simp [checkPremiumAccess, validateIsGuest, hval,
        validateIsPremium_of_invalid p hp], namesParamAndType_isPremium p⟩
  · intro b q u hu
    rcases hgu u hu with ⟨rfl, hval⟩ | ⟨s, rfl, hval⟩ <;>
      [skip; cases b] <;>
      simp [checkPremiumAccess, validateIsGuest, validateIsPremium, hval]
  · intro g u h
    exact ⟨_, by simp [isAuthenticated, validateIsGuest_of_invalid g h],
      namesParamAndType_isGuest g⟩
  · intro b u h
    obtain ⟨msg, hmsg, hn⟩ := validateUserId_of_invalid u h
    exact ⟨msg, by simp [isAuthenticated, validateIsGuest, hmsg], hn⟩
  · intro b u hu
    rcases hgu u hu with ⟨rfl, hval⟩ | ⟨s, rfl, hval⟩ <;>
      simp [isAuthenticated, validateIsGuest, hval]
  · intro g u h
    exact ⟨_, by simp [isGuest, validateIsGuest_of_invalid g h],
      namesParamAndType_isGuest g⟩
  · intro b u h
    obtain ⟨msg, hmsg, hn⟩ := validateUserId_of_invalid u h
    exact ⟨msg, by simp [isGuest, validateIsGuest, hmsg], hn⟩
  · intro b u hu
    rcases hgu u hu with ⟨rfl, hval⟩ | ⟨s, rfl, hval⟩ <;>
      simp [isGuest, validateIsGuest, hval]
  · intro g u fv h
    exact ⟨_, by simp [getIsPremium, validateIsGuest_of_invalid g h],
      namesParamAndType_isGuest g⟩
  · intro b u fv h
    obtain ⟨msg, hmsg, hn⟩ := validateUserId_of_invalid u h
    exact ⟨msg, by simp [getIsPremium, validateIsGuest, hmsg], hn⟩
  · intro b u f hu msg
    rcases hgu u hu with ⟨rfl, hval⟩ | ⟨s, rfl, hval⟩
    · cases b <;> simp [getIsPremium, validateIsGuest, validateFetcher, hval]
    · cases b
      · cases hfs : f s <;>
          simp [getIsPremium, validateIsGuest, validateFetcher, hval, hfs]
      · simp [getIsPremium, validateIsGuest, validateFetcher, hval]

/-- Claim C5 witness. -/
theorem resolver_invalid_argument_errors_witness :
    (∃ msg, getUserTierInfo (.num 7) .jsNull (.bool true) =
        .error (.typeError msg) ∧ namesParamAndType msg "isGuest" (.num 7)) ∧
    (∃ msg, checkPremiumAccess (.bool false) (.str " ") (.bool true) =
        .error (.typeError msg) ∧
        namesParamAndType msg "userId" (.str " ")) ∧
    (∃ r, isAuthenticated (.bool false) (.str "u1") = .ok r) :=
  ⟨resolver_invalid_argument_errors.1 (.num 7) .jsNull (.bool true)
      (by rintro ⟨b, h⟩; cases h),
   resolver_invalid_argument_errors.2.2.2.2.2.1 false (.str " ") (.bool true)
      (by rintro (h | ⟨s, hs, hws⟩)
          · cases h
          · cases hs
            exact absurd hws (by decide)),
   resolver_invalid_argument_errors.2.2.2.2.2.2.2.2.2.2.1 false (.str "u1")
      (Or.inr ⟨"u1", rfl, by decide⟩)⟩

end UserTierUtils

namespace UserTierUtils

/-- Claim C6: `hasTierAccess` decides rank comparison under the ranking
`guest = 0 < freemium = 1 < premium = 2`; it is reflexive, grants premium
access over freemium, and denies freemium access over premium. -/
theorem hasTierAccess_rank_order :
    (∀ tier1 tier2 : UserTier,
        hasTierAccess tier1 tier2 = true ↔ tierLevels tier2 ≤ tierLevels tier1) ∧
    (tierLevels .guest = 0 ∧ tierLevels .freemium = 1 ∧ tierLevels .premium = 2) ∧
    (∀ t : UserTier, hasTierAccess t t = true) ∧
    hasTierAccess .premium .freemium = true ∧
    hasTierAccess .freemium .premium = false ∧
    hasTierAccess .guest .guest = true := by
  decide

/-- Claim C7: for every valid input triple, `checkPremiumAccess` agrees
with the `isPremium` field of the resolver output: `false` for guests, the
supplied premium flag verbatim otherwise. -/
theorem checkPremiumAccess_matches_resolver (g q : Bool) (u : JSVal)
    (hu : validUserIdVal u) :
    checkPremiumAccess (.bool g) u (.bool q) =
      (getUserTierInfo (.bool g) u (.bool q)).map UserTierInfo.isPremium ∧
    checkPremiumAccess (.bool g) u (.bool q) =
      .ok (if g || u.isNull then false else q) := by
  rcases hu with rfl | ⟨s, rfl, hs⟩
  · cases g <;>
      simp [checkPremiumAccess, getUserTierInfo, validateIsGuest, validateUserId,
        validateIsPremium, JSVal.isNull, Except.map]
  · cases g <;>
      simp [checkPremiumAccess, getUserTierInfo, validateIsGuest, validateUserId,
        validateIsPremium, JSVal.isNull, Except.map, hs]

/-- Claim C7 witness. -/
theorem checkPremiumAccess_matches_resolver_witness :
    checkPremiumAccess (.bool false) (.str "u1") (.bool true) =
      (getUserTierInfo (.bool false) (.str "u1")
        (.bool true)).map UserTierInfo.isPremium ∧
    checkPremiumAccess (.bool false) (.str "u1") (.bool true) =
      .ok (if false || (JSVal.str "u1").isNull then false else true) :=
  checkPremiumAccess_matches_resolver false true (.str "u1")
    (Or.inr ⟨"u1", rfl, by decide⟩)

/-- Claim C8: for every valid input pair, `isAuthenticated` computes
`!isGuest && userId present`, `isGuest` computes `isGuest || userId null`,
the two predicates are complements, and `isAuthenticated` is false exactly
when the resolver classifies the user as guest. -/
theorem isAuthenticated_isGuest_consistency (g : Bool) (u : JSVal)
    (hu : validUserIdVal u) :
    isAuthenticated (.bool g) u = .ok (!g && !u.isNull) ∧
    isGuest (.bool g) u = .ok (g || u.isNull) ∧
    (∀ a gg : Bool, isAuthenticated (.bool g) u = .ok a →
        isGuest (.bool g) u = .ok gg → gg = !a) ∧
    (∀ p : Bool, ∀ info, getUserTierInfo (.bool g) u (.bool p) = .ok info →
        (isAuthenticated (.bool g) u = .ok false ↔ info.tier = .guest)) := by
  rcases hu with rfl | ⟨s, rfl, hs⟩
  · cases g <;>
      simp [isAuthenticated, isGuest, getUserTierInfo, validateIsGuest,
        validateUserId, validateIsPremium, JSVal.isNull]
  · cases g <;>
      simp [isAuthenticated, isGuest, getUserTierInfo, validateIsGuest,
        validateUserId, validateIsPremium, JSVal.isNull, hs]

/-- Claim C8 witness. -/
theorem isAuthenticated_isGuest_consistency_witness :
    isAuthenticated (.bool false) (.str "u1") =
      .ok (!false && !(JSVal.str "u1").isNull) ∧
    isGuest (.bool false) (.str "u1") =
      .ok (false || (JSVal.str "u1").isNull) :=
  ⟨(isAuthenticated_isGuest_consistency false (.str "u1")
      (Or.inr ⟨"u1", rfl, by decide⟩)).1,
   (isAuthenticated_isGuest_consistency false (.str "u1")
      (Or.inr ⟨"u1", rfl, by decide⟩)).2.1⟩

/-- Claim C9: every record the resolver returns on a valid input is
internally consistent (`isAuthenticated` negates `isGuest`, `userId` is
null exactly for guests, tier is guest exactly for guests, `isPremium`
holds exactly for premium tier) and passes the `isUserTierInfo` guard. -/
theorem getUserTierInfo_output_invariants (g p : Bool) (u : JSVal)
    (hu : validUserIdVal u) (info : UserTierInfo)
    (h : getUserTierInfo (.bool g) u (.bool p) = .ok info) :
    info.isAuthenticated = !info.isGuest ∧
    (info.userId = none ↔ info.isGuest = true) ∧
    (info.tier = .guest ↔ info.isGuest = true) ∧
    (info.isPremium = true ↔ info.tier = .premium) ∧
    isUserTierInfo info.toJS = true := by
  rcases hu with rfl | ⟨s, rfl, hs⟩
  · cases g <;>
      cases p <;>
      simp [getUserTierInfo, validateIsGuest, validateUserId,
        validateIsPremium] at h <;>
      simp [← h, isUserTierInfo, isValidUserTier, UserTierInfo.toJS, UserTier.toStr]
  · cases g <;>
      cases p <;>
      simp [getUserTierInfo, validateIsGuest, validateUserId, validateIsPremium,
        hs] at h <;>
      simp [← h, isUserTierInfo, isValidUserTier, UserTierInfo.toJS, UserTier.toStr]

/-- Claim C9 witness. -/
theorem getUserTierInfo_output_invariants_witness :
    (⟨.premium, true, false, true, some "u1"⟩ : UserTierInfo).isAuthenticated =
      !(⟨.premium, true, false, true, some "u1"⟩ : UserTierInfo).isGuest ∧
    ((⟨.premium, true, false, true, some "u1"⟩ : UserTierInfo).userId = none ↔
      (⟨.premium, true, false, true, some "u1"⟩ : UserTierInfo).isGuest = true) ∧
    ((⟨.premium, true, false, true, some "u1"⟩ : UserTierInfo).tier = .guest ↔
      (⟨.premium, true, false, true, some "u1"⟩ : UserTierInfo).isGuest = true) ∧
    ((⟨.premium, true, false, true, some "u1"⟩ : UserTierInfo).isPremium = true ↔
      (⟨.premium, true, false, true, some "u1"⟩ : UserTierInfo).tier = .premium) ∧
    isUserTierInfo
      (⟨.premium, true, false, true, some "u1"⟩ : UserTierInfo).toJS = true :=
  getUserTierInfo_output_invariants false true (.str "u1")
    (Or.inr ⟨"u1", rfl, by decide⟩) ⟨.premium, true, false, true, some "u1"⟩
    (by decide)

/-- Claim C10: `getIsPremium` validates the fetcher before the guest
short-circuit: for boolean guest flags and valid user ids, a malformed
fetcher (not an object exposing an `isPremium` function) makes the call
throw a `TypeError` with an empty call log, even when the input is
guest-classified, rather than resolving to `false`. -/
theorem getIsPremium_validates_fetcher_first (g : Bool) (u fv : JSVal)
    (hu : validUserIdVal u) (hf : ¬ validFetcherVal fv) :
    (∃ msg, getIsPremium (.bool g) u fv = ([], .error (.typeError msg))) ∧
    getIsPremium (.bool g) u fv ≠ ([], .ok false) := by
  have hval : (u = .jsNull ∧ validateUserId u = .ok none) ∨
      (∃ s, u = .str s ∧ validateUserId u = .ok (some s)) :=
    validateUserId_of_valid u hu
  have herr : ∃ msg, validateFetcher fv = .error (.typeError msg) := by
    cases fv with
    | obj o =>
        cases o with
        | none => exact ⟨_, rfl⟩
        | some f => exact absurd ⟨f, rfl⟩ hf
    | jsNull => exact ⟨_, rfl⟩
    | undef => exact ⟨_, rfl⟩
    | bool b => exact ⟨_, rfl⟩
    | str s => exact ⟨_, rfl⟩
    | num n => exact ⟨_, rfl⟩
  obtain ⟨msg, hmsg⟩ := herr
  rcases hval with ⟨rfl, hu2⟩ | ⟨s, rfl, hu2⟩ <;>
    exact ⟨⟨msg, by simp [getIsPremium, validateIsGuest, hu2, hmsg]⟩,
      by simp [getIsPremium, validateIsGuest, hu2, hmsg]⟩

/-- Claim C10 witness: a guest call with a numeric fetcher throws. -/
theorem getIsPremium_validates_fetcher_first_witness :
    (∃ msg, getIsPremium (.bool true) .jsNull (.num 1) =
        ([], .error (.typeError msg))) ∧
    getIsPremium (.bool true) .jsNull (.num 1) ≠ ([], .ok false) :=
  getIsPremium_validates_fetcher_first true .jsNull (.num 1) (Or.inl rfl)
    (by rintro ⟨f, h⟩; cases h)

end UserTierUtils
